import Mathlib

/-!
Shallow embedding of the notes app (src/store.ts, src/supabase.ts, src/types.ts).

The remote backend (Supabase) and the device key-value store (AsyncStorage)
are external collaborators; they are modelled as oracles: a `RemoteEnv`
records, for one run of a thunk, what the backend would answer to each
call, and local storage is an `Option (List Note)` standing for the value
serialized under the fixed key `notes` (none = key absent).
-/

/-- src/types.ts `Note`.  The optional TS fields `isOffline?: boolean` and
`localId?: string` are modelled as a `Bool` (absent = `false`, matching JS
truthiness) and an `Option String` (absent = `none`). -/
structure Note where
  id : String
  user_id : String
  title : String
  description : Option String
  tags : Option String
  created_at : String
  updated_at : String
  isOffline : Bool := false
  localId : Option String := none
deriving DecidableEq, Repr

/-- src/types.ts `User`. -/
structure User where
  id : String
  email : String
deriving DecidableEq, Repr

/-- src/types.ts `AuthState`. -/
structure AuthState where
  user : Option User
  isLoading : Bool
  error : Option String
deriving DecidableEq, Repr

/-- src/types.ts `NotesState`.  `syncStatus` is a string in the model; the
TS type restricts it to the four literals, which the reachability theorem
for the sync-status claim establishes for the model. -/
structure NotesState where
  notes : List Note
  isLoading : Bool
  error : Option String
  searchQuery : String
  syncStatus : String
deriving DecidableEq, Repr

/-- src/types.ts `RootState`. -/
structure RootState where
  auth : AuthState
  notes : NotesState
deriving DecidableEq, Repr

/-- The record handed to supabase `createNote` (a `Partial<Note>`): the
fields that actually cross the boundary.  `syncOfflineNotes` strips `id`,
`isOffline` and `localId` before inserting (so `id := none`), while
`addNote` passes a full note whose `id` is the empty string. -/
structure NoteData where
  id : Option String
  user_id : String
  title : String
  description : Option String
  tags : Option String
  created_at : String
  updated_at : String
deriving DecidableEq, Repr

/-- Outcome of supabase `fetchNotes`: a `{ data, error }` pair. -/
structure FetchOutcome where
  data : Option (List Note)
  error : Option String
deriving DecidableEq, Repr

/-- One-run oracle for the remote backend: what `createNote` answers for a
given record, what `fetchNotes` returns, and what error (if any)
`deleteNote` reports. -/
structure RemoteEnv where
  createNote : NoteData → Except String Note
  fetchNotes : FetchOutcome
  deleteNote : String → Option String

/-- `const { id, isOffline, localId, ...noteData } = note` in
src/supabase.ts `syncOfflineNotes`: the stripped record sent to
`createNote`. -/
def stripNote (n : Note) : NoteData :=
  { id := none
    user_id := n.user_id
    title := n.title
    description := n.description
    tags := n.tags
    created_at := n.created_at
    updated_at := n.updated_at }

/-- One entry of the `results` array built by src/supabase.ts
`syncOfflineNotes`: `{ localId: note.localId, data, error }`. -/
structure SyncResult where
  localId : Option String
  data : Option Note
  error : Option String
deriving DecidableEq, Repr

/-- src/supabase.ts `syncOfflineNotes`: for each note of the list, if it is
flagged `isOffline`, strip the local fields, insert via `createNote` and
record `{ localId, data, error }`.  The second component instruments the
run with the list of records actually handed to `createNote` (the insert
attempts), in order. -/
def syncOfflineNotes (env : RemoteEnv) : List Note → List SyncResult × List NoteData
  | [] => ([], [])
  | note :: rest =>
    let tail := syncOfflineNotes env rest
    if note.isOffline then
      let nd := stripNote note
      let res :=
        match env.createNote nd with
        | Except.ok d => ({ localId := note.localId, data := some d, error := none } : SyncResult)
        | Except.error e => ({ localId := note.localId, data := none, error := some e } : SyncResult)
      (res :: tail.1, nd :: tail.2)
    else tail

/-- src/store.ts `syncNotes` thunk (lines 139-169).  Returns the thunk
outcome (`ok` = fulfilled with the notes list, `error` = rejected with the
message) paired with the list of insert attempts made against the remote
store during the run.  The code throws `User not authenticated` without a
user, pushes every offline-flagged note (with `user_id` rewritten to the
user's id) through `syncOfflineNotes`, collects `syncedIds` from ALL
results (errored ones included), keeps the offline notes whose `localId`
is not among `syncedIds`, refetches, and returns remote ++ kept. -/
def syncNotes (env : RemoteEnv) (st : RootState) :
    Except String (List Note) × List NoteData :=
  match st.auth.user with
  | none => (Except.error "User not authenticated", [])
  | some user =>
    let offlineNotes :=
      (st.notes.notes.filter (fun n => n.isOffline)).map
        (fun n => { n with user_id := user.id })
    let sync := syncOfflineNotes env offlineNotes
    let syncedIds := sync.1.map (fun r => r.localId)
    let unsyncedNotes :=
      st.notes.notes.filter (fun n => n.isOffline && !(syncedIds.contains n.localId))
    match env.fetchNotes.error with
    | some e => (Except.error e, sync.2)
    | none =>
      (Except.ok ((env.fetchNotes.data.getD []) ++ unsyncedNotes), sync.2)

/-- src/store.ts `loadNotes` thunk (lines 48-77).  `storage` is the value
under the `notes` key (none = nothing stored).  Unauthenticated: return the
stored list.  Authenticated: fetch; on error fall back to the stored list;
on success return remote ++ stored notes flagged `isOffline`. -/
def loadNotes (env : RemoteEnv) (storage : Option (List Note))
    (user : Option User) : List Note :=
  match user with
  | none => storage.getD []
  | some _ =>
    match env.fetchNotes.error with
    | some _ => storage.getD []
    | none =>
      let onlineNotes := env.fetchNotes.data.getD []
      let offlineNotes := storage.getD []
      onlineNotes ++ offlineNotes.filter (fun n => n.isOffline)

/-- Argument of the `addNote` thunk. -/
structure NoteInput where
  title : String
  description : String
  tags : String
deriving DecidableEq, Repr

/-- The note literal built at the top of src/store.ts `addNote`
(lines 85-93); `now` models `Date.now()` for this run and `isoNow` the
matching `new Date().toISOString()` string. -/
def addNoteBase (user : Option User) (inp : NoteInput) (isoNow : String) : Note :=
  { id := ""
    user_id := (user.map (fun u => u.id)).getD "offline"
    title := inp.title
    description := some inp.description
    tags := some inp.tags
    created_at := isoNow
    updated_at := isoNow }

/-- The `Partial<Note>` that `addNote` hands to supabase `createNote`
(the full literal, `id` being the empty string). -/
def noteToData (n : Note) : NoteData :=
  { id := some n.id
    user_id := n.user_id
    title := n.title
    description := n.description
    tags := n.tags
    created_at := n.created_at
    updated_at := n.updated_at }

/-- src/store.ts `addNote` thunk (lines 79-114).  With a user, try the
remote create and return its row; on error (or without a user) fall through
to the offline literal: `id` and `localId` both set to
`offline_` ++ the timestamp, `isOffline := true`. -/
def addNote (env : RemoteEnv) (user : Option User) (inp : NoteInput)
    (now : Nat) (isoNow : String) : Note :=
  let note := addNoteBase user inp isoNow
  let online : Option Note :=
    match user with
    | some _ =>
      match env.createNote (noteToData note) with
      | Except.ok d => some d
      | Except.error _ => none
    | none => none
  match online with
  | some d => d
  | none =>
    let timestamp := "offline_" ++ toString now
    { note with id := timestamp, localId := some timestamp, isOffline := true }

/-- src/store.ts `removeNote` thunk (lines 117-135).  Looks the note up in
state; if it exists and is not offline it attempts the remote delete,
swallowing any error; the thunk always fulfills with `noteId`.  The second
component records whether the remote delete was attempted. -/
def removeNote (env : RemoteEnv) (st : RootState) (noteId : String) :
    String × Bool :=
  match st.notes.notes.find? (fun n => n.id == noteId) with
  | some note =>
    if note.isOffline then (noteId, false)
    else
      let _ := env.deleteNote noteId
      (noteId, true)
  | none => (noteId, false)

/-- src/store.ts `logoutUser` thunk (lines 35-39): on a sign-out error it
throws; otherwise it removes the `notes` key from AsyncStorage.  Returns
the storage cell after the run. -/
def logoutUser (signOutError : Option String) (storage : Option (List Note)) :
    Except String (Option (List Note)) :=
  match signOutError with
  | some e => Except.error e
  | none =>
    let _ := storage
    Except.ok none

/-- The four-value sync-status enumeration of src/types.ts
(`NotesState[syncStatus]`), payload type of the `setSyncStatus` action. -/
inductive SyncStatus where
  | idle
  | syncing
  | success
  | error
deriving DecidableEq, Repr

/-- The string each `SyncStatus` value denotes. -/
def SyncStatus.str : SyncStatus → String
  | SyncStatus.idle => "idle"
  | SyncStatus.syncing => "syncing"
  | SyncStatus.success => "success"
  | SyncStatus.error => "error"

/-- The actions the `notes` slice of src/store.ts handles (its own reducers
and the extraReducers cases); rejection payloads carry the optional
`action.error.message`. -/
inductive NotesAction where
  | setSearchQuery (q : String)
  | clearError
  | setSyncStatus (s : SyncStatus)
  | loadPending
  | loadFulfilled (ns : List Note)
  | loadRejected (msg : Option String)
  | addFulfilled (n : Note)
  | addRejected (msg : Option String)
  | removeFulfilled (noteId : String)
  | syncPending
  | syncFulfilled (ns : List Note)
  | syncRejected (msg : Option String)

/-- The `notesSlice` reducer of src/store.ts (lines 252-323), case by
case.  `syncNotes.rejected` (lines 311-320) sets `syncStatus` to `error`
and copies `action.error.message` into the error slot when present, else
clears it.  (The `AsyncStorage.setItem` side effects of the fulfilled
cases persist the list and do not touch the state.) -/
def notesReducer (st : NotesState) : NotesAction → NotesState
  | NotesAction.setSearchQuery q => { st with searchQuery := q }
  | NotesAction.clearError => { st with error := none }
  | NotesAction.setSyncStatus s => { st with syncStatus := s.str }
  | NotesAction.loadPending => { st with isLoading := true, error := none }
  | NotesAction.loadFulfilled ns => { st with isLoading := false, notes := ns }
  | NotesAction.loadRejected msg =>
    { st with isLoading := false, error := some (msg.getD "Failed to load notes") }
  | NotesAction.addFulfilled n => { st with notes := n :: st.notes }
  | NotesAction.addRejected msg =>
    { st with error := some (msg.getD "Failed to add note") }
  | NotesAction.removeFulfilled noteId =>
    { st with notes := st.notes.filter (fun n => n.id != noteId) }
  | NotesAction.syncPending => { st with syncStatus := "syncing" }
  | NotesAction.syncFulfilled ns =>
    { st with syncStatus := "success", notes := ns }
  | NotesAction.syncRejected msg =>
    { st with syncStatus := "error", error := msg }

/-- The `initialState` of the notes slice (src/store.ts lines 254-260). -/
def notesInit : NotesState :=
  { notes := []
    isLoading := false
    error := none
    searchQuery := ""
    syncStatus := "idle" }

/-! ### Concrete fixtures used by witnesses and counterexamples -/

/-- A sample authenticated user. -/
def sampleUser : User := { id := "user-1", email := "a@b.c" }

/-- A sample offline note, as the offline path of `addNote` produces it. -/
def sampleOffNote : Note :=
  { id := "offline_1"
    user_id := "offline"
    title := "t"
    description := some "d"
    tags := some ""
    created_at := "c"
    updated_at := "c"
    isOffline := true
    localId := some "offline_1" }

/-- A sample remote note. -/
def sampleRemoteNote : Note :=
  { id := "remote-7"
    user_id := "user-1"
    title := "r"
    description := none
    tags := none
    created_at := "c"
    updated_at := "c" }

/-- A root state with an authenticated user and one offline note. -/
def sampleState : RootState :=
  { auth := { user := some sampleUser, isLoading := false, error := none }
    notes := { notesInit with notes := [sampleOffNote] } }

/-- Remote oracle: every insert errors, the refetch succeeds with an empty
remote list. -/
def envInsertFails : RemoteEnv :=
  { createNote := fun _ => Except.error "insert failed"
    fetchNotes := { data := some [], error := none }
    deleteNote := fun _ => none }

/-- Remote oracle: inserts error and the refetch errors too. -/
def envAllFail : RemoteEnv :=
  { createNote := fun _ => Except.error "insert failed"
    fetchNotes := { data := none, error := some "network down" }
    deleteNote := fun _ => none }

/-- Remote oracle: inserts succeed (returning the sample remote note) and
the refetch succeeds. -/
def envAllOk : RemoteEnv :=
  { createNote := fun _ => Except.ok sampleRemoteNote
    fetchNotes := { data := some [sampleRemoteNote], error := none }
    deleteNote := fun _ => none }

/-- Remote oracle: inserts succeed but the refetch errors (e.g. the
connection drops right after the writes). -/
def envInsertOkFetchFail : RemoteEnv :=
  { createNote := fun _ => Except.ok sampleRemoteNote
    fetchNotes := { data := none, error := some "network down" }
    deleteNote := fun _ => none }

/-- A sample `addNote` input. -/
def sampleInput : NoteInput := { title := "t", description := "d", tags := "" }

/-- The note the offline path of `addNote` produces at timestamp 5 — two
calls in the same millisecond produce this same note, id included. -/
def dupNote : Note := addNote envAllOk none sampleInput 5 "iso"

/-- The notes state after one `addNote.fulfilled` of `dupNote` from the
initial state. -/
def dupState1 : NotesState := notesReducer notesInit (NotesAction.addFulfilled dupNote)

/-- The notes state after a second `addNote.fulfilled` of `dupNote`. -/
def dupState2 : NotesState := notesReducer dupState1 (NotesAction.addFulfilled dupNote)

/-- Whether the value stored under the `notes` key holds a note with the
given id. -/
def storedContains (storage : Option (List Note)) (noteId : String) : Bool :=
  (storage.getD []).any (fun n => n.id == noteId)

/-! ### Helper lemmas -/

/-- On a list of notes all flagged offline (as `syncNotes` always passes),
`syncOfflineNotes` attempts one insert per note, of the stripped record. -/
theorem syncOfflineNotes_attempts (env : RemoteEnv) :
    ∀ l : List Note, (∀ n ∈ l, n.isOffline = true) →
      (syncOfflineNotes env l).2 = l.map stripNote := by
  intro l
  induction l with
  | nil => intro _; rfl
  | cons a t ih =>
    intro h
    have ha : a.isOffline = true := h a (List.mem_cons_self a t)
    have ht := ih (fun n hn => h n (List.mem_cons_of_mem a hn))
    simp [syncOfflineNotes, ha, ht]

/-- On a list of notes all flagged offline, the `localId`s recorded in the
results of `syncOfflineNotes` are exactly the `localId`s of the input
notes — whether or not the individual insert errored. -/
theorem syncOfflineNotes_localIds (env : RemoteEnv) :
    ∀ l : List Note, (∀ n ∈ l, n.isOffline = true) →
      (syncOfflineNotes env l).1.map (fun r => r.localId) =
        l.map (fun n => n.localId) := by
  intro l
  induction l with
  | nil => intro _; rfl
  | cons a t ih =>
    intro h
    have ha : a.isOffline = true := h a (List.mem_cons_self a t)
    have ht := ih (fun n hn => h n (List.mem_cons_of_mem a hn))
    cases hc : env.createNote (stripNote a) <;>
      simp [syncOfflineNotes, ha, hc, ht]

/-- Every note in the list `syncNotes` pushes to `syncOfflineNotes` is
flagged offline. -/
theorem offlinePush_all_offline (u : User) (ns : List Note) :
    ∀ n ∈ (ns.filter (fun n => n.isOffline)).map
        (fun n => { n with user_id := u.id }), n.isOffline = true := by
  intro n hn
  rcases List.mem_map.mp hn with ⟨m, hm, rfl⟩
  simpa using List.of_mem_filter hm

/-! ### Claims -/

/-- C1: run on a state with an authenticated user and a successful refetch,
`syncNotes` attempts to insert exactly the offline-flagged notes (stripped,
with the user's id) into the remote store, and fulfills with the refetched
remote list followed by exactly those offline notes of the state whose
`localId` does not appear among the insert results. -/
theorem syncNotes_spec (env : RemoteEnv) (st : RootState) (u : User)
    (hu : st.auth.user = some u) (hf : env.fetchNotes.error = none) :
    (syncNotes env st).2 =
      ((st.notes.notes.filter (fun n => n.isOffline)).map
        (fun n => { n with user_id := u.id })).map stripNote ∧
    (syncNotes env st).1 =
      Except.ok ((env.fetchNotes.data.getD []) ++
        st.notes.notes.filter (fun n => n.isOffline &&
          !(((syncOfflineNotes env
                ((st.notes.notes.filter (fun n => n.isOffline)).map
                  (fun n => { n with user_id := u.id }))).1.map
              (fun r => r.localId)).contains n.localId))) := by
  constructor
  · simp only [syncNotes, hu, hf]
    exact syncOfflineNotes_attempts env _ (offlinePush_all_offline u st.notes.notes)
  · simp only [syncNotes, hu, hf]

/-- Witness for C1 at a concrete state and oracle. -/
theorem syncNotes_spec_witness :
    (syncNotes envInsertFails sampleState).2 =
      ((sampleState.notes.notes.filter (fun n => n.isOffline)).map
        (fun n => { n with user_id := sampleUser.id })).map stripNote ∧
    (syncNotes envInsertFails sampleState).1 =
      Except.ok ((envInsertFails.fetchNotes.data.getD []) ++
        sampleState.notes.notes.filter (fun n => n.isOffline &&
          !(((syncOfflineNotes envInsertFails
                ((sampleState.notes.notes.filter (fun n => n.isOffline)).map
                  (fun n => { n with user_id := sampleUser.id }))).1.map
              (fun r => r.localId)).contains n.localId))) :=
  syncNotes_spec envInsertFails sampleState sampleUser rfl rfl

/-- C2 (code bug): a state holding one offline note whose remote insert
errors.  The insert result records the error, yet the fulfilled `syncNotes`
list is the bare remote list — the stale local copy is dropped, because
`syncedIds` is built from all results, errored ones included. -/
theorem syncNotes_drops_failed_insert :
    (syncOfflineNotes envInsertFails
        ((sampleState.notes.notes.filter (fun n => n.isOffline)).map
          (fun n => { n with user_id := sampleUser.id }))).1 =
      [{ localId := some "offline_1", data := none, error := some "insert failed" }] ∧
    (syncNotes envInsertFails sampleState).1 = Except.ok [] := by
  constructor <;> rfl

/-- C3: sync is not idempotent.  In `sampleState` the offline note's insert
succeeds during a first run of `syncNotes` (the remote store now holds it),
but the run as a whole rejects because the refetch fails, so it never
reports success; the rejected reducer leaves the notes list unchanged, and
a second run of `syncNotes` hands the very same record to the remote
insert again — a duplicate remote note. -/
theorem syncNotes_not_idempotent :
    (syncOfflineNotes envInsertOkFetchFail
        ((sampleState.notes.notes.filter (fun n => n.isOffline)).map
          (fun n => { n with user_id := sampleUser.id }))).1 =
      [{ localId := some "offline_1", data := some sampleRemoteNote, error := none }] ∧
    (syncNotes envInsertOkFetchFail sampleState).1 = Except.error "network down" ∧
    (syncNotes envInsertOkFetchFail sampleState).2 =
      [stripNote { sampleOffNote with user_id := sampleUser.id }] ∧
    (notesReducer sampleState.notes
        (NotesAction.syncRejected (some "network down"))).notes =
      sampleState.notes.notes ∧
    (syncNotes envAllOk sampleState).2 =
      [stripNote { sampleOffNote with user_id := sampleUser.id }] := by
  exact ⟨rfl, rfl, rfl, rfl, rfl⟩

/-- C4: `syncNotes` rejects as a whole exactly when the user is
unauthenticated or the post-sync refetch fails, and the rejected reducer
leaves the notes list (and every field other than `syncStatus` and the
error slot) unchanged: `syncStatus` becomes `error` and the error slot
receives the message. -/
theorem syncNotes_rejected_keeps_notes (env : RemoteEnv) (st : RootState)
    (msg : Option String) :
    ((st.auth.user = none ∨ env.fetchNotes.error ≠ none) ↔
      ∃ e, (syncNotes env st).1 = Except.error e) ∧
    (notesReducer st.notes (NotesAction.syncRejected msg)).notes = st.notes.notes ∧
    (notesReducer st.notes (NotesAction.syncRejected msg)).syncStatus = "error" ∧
    (notesReducer st.notes (NotesAction.syncRejected msg)).error = msg ∧
    (notesReducer st.notes (NotesAction.syncRejected msg)).isLoading =
      st.notes.isLoading ∧
    (notesReducer st.notes (NotesAction.syncRejected msg)).searchQuery =
      st.notes.searchQuery := by
  refine ⟨⟨?_, ?_⟩, rfl, rfl, rfl, rfl, rfl⟩
  · rintro (h | h)
    · exact ⟨"User not authenticated", by simp [syncNotes, h]⟩
    · cases hu : st.auth.user with
      | none => exact ⟨"User not authenticated", by simp [syncNotes, hu]⟩
      | some u =>
        cases hf : env.fetchNotes.error with
        | none => exact absurd hf h
        | some e => exact ⟨e, by simp [syncNotes, hu, hf]⟩
  · rintro ⟨e, he⟩
    cases hu : st.auth.user with
    | none => exact Or.inl rfl
    | some u =>
      cases hf : env.fetchNotes.error with
      | some x => exact Or.inr (by simp [hf])
      | none => simp [syncNotes, hu, hf] at he

/-- Witness for C4 at a concrete state and oracle. -/
theorem syncNotes_rejected_keeps_notes_witness :
    ((sampleState.auth.user = none ∨ envAllFail.fetchNotes.error ≠ none) ↔
      ∃ e, (syncNotes envAllFail sampleState).1 = Except.error e) ∧
    (notesReducer sampleState.notes
        (NotesAction.syncRejected (some "network down"))).notes =
      sampleState.notes.notes ∧
    (notesReducer sampleState.notes
        (NotesAction.syncRejected (some "network down"))).syncStatus = "error" ∧
    (notesReducer sampleState.notes
        (NotesAction.syncRejected (some "network down"))).error =
      some "network down" ∧
    (notesReducer sampleState.notes
        (NotesAction.syncRejected (some "network down"))).isLoading =
      sampleState.notes.isLoading ∧
    (notesReducer sampleState.notes
        (NotesAction.syncRejected (some "network down"))).searchQuery =
      sampleState.notes.searchQuery :=
  syncNotes_rejected_keeps_notes envAllFail sampleState (some "network down")

/-- C5 counterexample: identifier uniqueness is not an invariant.  Starting
from the empty list, one `addNote.fulfilled` of the offline note generated
at timestamp 5 leaves the ids pairwise distinct, but a second
`addNote.fulfilled` carrying the note generated in the same millisecond
(same `Date.now()`) breaks it: the list then holds two notes with id
`offline_5`. -/
theorem addNote_duplicate_id :
    (dupState1.notes.map (fun n => n.id)).Nodup ∧
    ¬ (dupState2.notes.map (fun n => n.id)).Nodup := by
  constructor
  · decide
  · decide

/-- C5 amended: the write operations preserve pairwise-distinct ids
provided their payloads are fresh: `loadNotes.fulfilled` and
`syncNotes.fulfilled` when the payload list itself has pairwise-distinct
ids, `addNote.fulfilled` when the new note's id is not already in the
list, and `removeNote.fulfilled` unconditionally. -/
theorem id_uniqueness_preserved (st : NotesState) (ns : List Note) (n : Note)
    (noteId : String)
    (hst : (st.notes.map (fun x => x.id)).Nodup)
    (hns : (ns.map (fun x => x.id)).Nodup)
    (hn : n.id ∉ st.notes.map (fun x => x.id)) :
    ((notesReducer st (NotesAction.loadFulfilled ns)).notes.map
      (fun x => x.id)).Nodup ∧
    ((notesReducer st (NotesAction.addFulfilled n)).notes.map
      (fun x => x.id)).Nodup ∧
    ((notesReducer st (NotesAction.removeFulfilled noteId)).notes.map
      (fun x => x.id)).Nodup ∧
    ((notesReducer st (NotesAction.syncFulfilled ns)).notes.map
      (fun x => x.id)).Nodup := by
  refine ⟨hns, ?_, ?_, hns⟩
  · simp only [notesReducer, List.map_cons, List.nodup_cons]
    exact ⟨hn, hst⟩
  · exact hst.sublist ((List.filter_sublist _).map _)

/-- Witness for the amended C5 at concrete inputs. -/
theorem id_uniqueness_preserved_witness :
    ((notesReducer dupState1 (NotesAction.loadFulfilled [sampleRemoteNote])).notes.map
      (fun x => x.id)).Nodup ∧
    ((notesReducer dupState1 (NotesAction.addFulfilled sampleRemoteNote)).notes.map
      (fun x => x.id)).Nodup ∧
    ((notesReducer dupState1 (NotesAction.removeFulfilled "offline_5")).notes.map
      (fun x => x.id)).Nodup ∧
    ((notesReducer dupState1 (NotesAction.syncFulfilled [sampleRemoteNote])).notes.map
      (fun x => x.id)).Nodup :=
  id_uniqueness_preserved dupState1 [sampleRemoteNote] sampleRemoteNote "offline_5"
    (by decide) (by decide) (by decide)

/-- C6: `loadNotes` falls back to the cached data.  Unauthenticated it
returns exactly the stored list (empty if nothing is stored); authenticated
with a failing remote fetch it returns the stored list; authenticated with
a successful fetch it returns the remote notes followed by exactly the
stored notes flagged `isOffline`. -/
theorem loadNotes_fallback (env : RemoteEnv) (storage : Option (List Note))
    (u : User) :
    loadNotes env storage none = storage.getD [] ∧
    (env.fetchNotes.error ≠ none →
      loadNotes env storage (some u) = storage.getD []) ∧
    (env.fetchNotes.error = none →
      loadNotes env storage (some u) =
        (env.fetchNotes.data.getD []) ++
          (storage.getD []).filter (fun n => n.isOffline)) := by
  refine ⟨rfl, ?_, ?_⟩
  · intro h
    cases hf : env.fetchNotes.error with
    | none => exact absurd hf h
    | some e => simp [loadNotes, hf]
  · intro h
    simp [loadNotes, h]

/-- Witness for C6 at concrete storage, user and oracles. -/
theorem loadNotes_fallback_witness :
    loadNotes envAllFail (some [sampleOffNote]) (some sampleUser) =
      (some [sampleOffNote] : Option (List Note)).getD [] ∧
    loadNotes envAllOk (some [sampleOffNote]) (some sampleUser) =
      (envAllOk.fetchNotes.data.getD []) ++
        ((some [sampleOffNote] : Option (List Note)).getD []).filter
          (fun n => n.isOffline) :=
  ⟨(loadNotes_fallback envAllFail (some [sampleOffNote]) sampleUser).2.1
      (by simp [envAllFail]),
   (loadNotes_fallback envAllOk (some [sampleOffNote]) sampleUser).2.2 rfl⟩

/-- C7: whenever `addNote` takes the offline path — no authenticated user,
or the remote create errors — the returned note has `isOffline = true`, a
generated `localId` of the form `offline_` ++ the timestamp, and an `id`
equal to that same `localId`. -/
theorem addNote_offline_path (env : RemoteEnv) (user : Option User)
    (inp : NoteInput) (now : Nat) (isoNow : String) :
    (user = none →
      (addNote env user inp now isoNow).isOffline = true ∧
      (addNote env user inp now isoNow).localId =
        some ("offline_" ++ toString now) ∧
      (addNote env user inp now isoNow).id = "offline_" ++ toString now) ∧
    (∀ u e, user = some u →
      env.createNote (noteToData (addNoteBase user inp isoNow)) =
        Except.error e →
      (addNote env user inp now isoNow).isOffline = true ∧
      (addNote env user inp now isoNow).localId =
        some ("offline_" ++ toString now) ∧
      (addNote env user inp now isoNow).id = "offline_" ++ toString now) := by
  constructor
  · intro h
    subst h
    refine ⟨rfl, rfl, rfl⟩
  · intro u e hu he
    subst hu
    simp [addNote, he]

/-- Witness for C7: concrete offline creation with a user whose remote
create errors. -/
theorem addNote_offline_path_witness :
    (addNote envInsertFails (some sampleUser) sampleInput 5 "iso").isOffline =
      true ∧
    (addNote envInsertFails (some sampleUser) sampleInput 5 "iso").localId =
      some ("offline_" ++ toString 5) ∧
    (addNote envInsertFails (some sampleUser) sampleInput 5 "iso").id =
      "offline_" ++ toString 5 :=
  (addNote_offline_path envInsertFails (some sampleUser) sampleInput 5
      "iso").2 sampleUser "insert failed" rfl rfl

/-- C8 counterexample: local storage holds one unsynchronized offline note;
a successful `logoutUser` removes the `notes` key wholesale, so the note is
no longer present in local storage afterwards — the claim that logout
leaves it present is false. -/
theorem logout_drops_offline_note :
    storedContains (some [sampleOffNote]) sampleOffNote.id = true ∧
    logoutUser none (some [sampleOffNote]) = Except.ok none ∧
    storedContains none sampleOffNote.id = false := by
  refine ⟨rfl, rfl, rfl⟩

/-- C8 amended: an offline note persists under the `notes` key only until
sync, explicit deletion, or logout: a `logoutUser` run whose sign-out
succeeds removes the entire `notes` key (offline notes included) for every
prior storage content, while a failing sign-out throws and leaves storage
untouched. -/
theorem logoutUser_clears_notes_key (storage : Option (List Note)) :
    logoutUser none storage = Except.ok none ∧
    (∀ e, logoutUser (some e) storage = Except.error e) :=
  ⟨rfl, fun _ => rfl⟩

/-- C9: starting from the initial notes state (`syncStatus = idle`), after
any sequence of notes-slice actions the sync-status field holds one of the
four enumerated values `idle`, `syncing`, `success`, `error`. -/
theorem syncStatus_enum (acts : List NotesAction) :
    (acts.foldl notesReducer notesInit).syncStatus = "idle" ∨
    (acts.foldl notesReducer notesInit).syncStatus = "syncing" ∨
    (acts.foldl notesReducer notesInit).syncStatus = "success" ∨
    (acts.foldl notesReducer notesInit).syncStatus = "error" := by
  have general : ∀ (l : List NotesAction) (st : NotesState),
      (st.syncStatus = "idle" ∨ st.syncStatus = "syncing" ∨
        st.syncStatus = "success" ∨ st.syncStatus = "error") →
      ((l.foldl notesReducer st).syncStatus = "idle" ∨
        (l.foldl notesReducer st).syncStatus = "syncing" ∨
        (l.foldl notesReducer st).syncStatus = "success" ∨
        (l.foldl notesReducer st).syncStatus = "error") := by
    intro l
    induction l with
    | nil => intro st h; exact h
    | cons a t ih =>
      intro st h
      apply ih
      cases a with
      | setSyncStatus s => cases s <;> simp [notesReducer, SyncStatus.str]
      | syncPending => simp [notesReducer]
      | syncFulfilled ns => simp [notesReducer]
      | syncRejected m => simp [notesReducer]
      | setSearchQuery q => simpa [notesReducer] using h
      | clearError => simpa [notesReducer] using h
      | loadPending => simpa [notesReducer] using h
      | loadFulfilled ns => simpa [notesReducer] using h
      | loadRejected m => simpa [notesReducer] using h
      | addFulfilled n => simpa [notesReducer] using h
      | addRejected m => simpa [notesReducer] using h
      | removeFulfilled i => simpa [notesReducer] using h
  exact general acts notesInit (Or.inl rfl)

/-- C10: `removeNote` always fulfills with the requested id; it attempts
the remote delete exactly when the targeted note exists in state and is
not flagged `isOffline`; and the fulfilled reducer removes exactly the
notes whose id equals the requested one, leaving every other note and the
remaining fields of the notes state unchanged. -/
theorem removeNote_spec (env : RemoteEnv) (st : RootState) (noteId : String) :
    (removeNote env st noteId).1 = noteId ∧
    ((removeNote env st noteId).2 = true ↔
      ∃ note, st.notes.notes.find? (fun n => n.id == noteId) = some note ∧
        note.isOffline = false) ∧
    (notesReducer st.notes (NotesAction.removeFulfilled noteId)).notes =
      st.notes.notes.filter (fun n => n.id != noteId) ∧
    (∀ n ∈ st.notes.notes, n.id ≠ noteId →
      n ∈ (notesReducer st.notes (NotesAction.removeFulfilled noteId)).notes) ∧
    (∀ n ∈ (notesReducer st.notes (NotesAction.removeFulfilled noteId)).notes,
      n.id ≠ noteId ∧ n ∈ st.notes.notes) ∧
    (notesReducer st.notes (NotesAction.removeFulfilled noteId)).isLoading =
      st.notes.isLoading ∧
    (notesReducer st.notes (NotesAction.removeFulfilled noteId)).error =
      st.notes.error ∧
    (notesReducer st.notes (NotesAction.removeFulfilled noteId)).searchQuery =
      st.notes.searchQuery ∧
    (notesReducer st.notes (NotesAction.removeFulfilled noteId)).syncStatus =
      st.notes.syncStatus := by
  refine ⟨?_, ?_, rfl, ?_, ?_, rfl, rfl, rfl, rfl⟩
  · cases hf : st.notes.notes.find? (fun n => n.id == noteId) with
    | none => simp [removeNote, hf]
    | some note => cases ho : note.isOffline <;> simp [removeNote, hf, ho]
  · cases hf : st.notes.notes.find? (fun n => n.id == noteId) with
    | none => simp [removeNote, hf]
    | some note =>
      cases ho : note.isOffline with
      | false => simp [removeNote, hf, ho]
      | true => simp [removeNote, hf, ho]
  · intro n hn hne
    simp only [notesReducer]
    exact List.mem_filter.mpr ⟨hn, by simpa using hne⟩
  · intro n hn
    simp only [notesReducer] at hn
    have := List.mem_filter.mp hn
    exact ⟨by simpa using this.2, this.1⟩

/-- Witness for C10 at a concrete state and oracle. -/
theorem removeNote_spec_witness :
    (removeNote envAllOk sampleState "offline_1").1 = "offline_1" ∧
    ((removeNote envAllOk sampleState "offline_1").2 = true ↔
      ∃ note, sampleState.notes.notes.find? (fun n => n.id == "offline_1") =
          some note ∧ note.isOffline = false) ∧
    (notesReducer sampleState.notes
        (NotesAction.removeFulfilled "offline_1")).notes =
      sampleState.notes.notes.filter (fun n => n.id != "offline_1") ∧
    (∀ n ∈ sampleState.notes.notes, n.id ≠ "offline_1" →
      n ∈ (notesReducer sampleState.notes
        (NotesAction.removeFulfilled "offline_1")).notes) ∧
    (∀ n ∈ (notesReducer sampleState.notes
        (NotesAction.removeFulfilled "offline_1")).notes,
      n.id ≠ "offline_1" ∧ n ∈ sampleState.notes.notes) ∧
    (notesReducer sampleState.notes
        (NotesAction.removeFulfilled "offline_1")).isLoading =
      sampleState.notes.isLoading ∧
    (notesReducer sampleState.notes
        (NotesAction.removeFulfilled "offline_1")).error =
      sampleState.notes.error ∧
    (notesReducer sampleState.notes
        (NotesAction.removeFulfilled "offline_1")).searchQuery =
      sampleState.notes.searchQuery ∧
    (notesReducer sampleState.notes
        (NotesAction.removeFulfilled "offline_1")).syncStatus =
      sampleState.notes.syncStatus :=
  removeNote_spec envAllOk sampleState "offline_1"
